import Mathlib

/-!
Verification of the RAG orchestration pipeline in
`Prototype/Backend/RAG.py` (`generate_stream` and its nested
`stream_model_response`), against the design specification.

The source is shallowly embedded: Python JSON-like values become the
inductive `PyVal`; the external collaborators (the generation backend
reached twice over HTTP, the two FAISS indices, and the FlashRank
re-ranker, all declared out of scope by the spec) become oracle fields of
a `World` record, each returning `Except String _` so that a transport or
protocol failure is an explicit error value; Python exceptions raised
before the `try:` block of `generate_stream` become the `DirectErr` error
of the top-level `Except`, while every exception raised inside the
`try:` block is converted, exactly as in the source's `except` clause, to
a single terminal JSON error chunk.
-/

/-- A Python value as it can occur in the JSON payloads the pipeline
manipulates.  Numbers are modelled as rationals: the source never
performs arithmetic on them (`0.8`, `4096`, `8192` are only threaded
through to the backend), so the representation is faithful. -/
inductive PyVal where
  | obj : List (String × PyVal) → PyVal
  | arr : List PyVal → PyVal
  | str : String → PyVal
  | num : ℚ → PyVal
  | bool : Bool → PyVal
  | null : PyVal

/-- Python `d.get(k)` on a dict represented as an association list
(JSON objects have unique keys, so first-match lookup is faithful). -/
def pyGet (fs : List (String × PyVal)) (k : String) : Option PyVal :=
  match fs with
  | [] => none
  | (k2, v) :: rest => if k2 = k then some v else pyGet rest k

/-- A langchain `Document`: `page_content` is always a string, metadata a
string-keyed mapping. -/
structure Doc where
  page_content : String
  metadata : List (String × PyVal)

/-- A re-ranker passage as built at RAG.py lines 260-264:
`{'id': doc.metadata.get('ids', ''), 'text': doc.page_content, 'meta': doc.metadata}`. -/
structure Passage where
  id : PyVal
  text : String
  meta : List (String × PyVal)

/-- The request issued to the generation backend at RAG.py lines 304-314.
`stream` is commented out in the source payload; `keep_alive` is the
constant `0`. -/
structure GenRequest where
  model : PyVal
  messages : List PyVal
  temperature : PyVal
  num_predict : PyVal
  num_ctx : PyVal
  keep_alive : PyVal

/-- The values extracted from the caller's payload at RAG.py lines 67-73,
before validation. -/
structure Params where
  model : PyVal
  temperature : PyVal
  max_tokens : PyVal
  context_length : PyVal
  stream : PyVal

/-- An exception escaping `generate_stream` directly (raised outside the
`try:` block): the explicit `ValueError` of line 79, or an
`AttributeError` from calling `.get` on a non-dict at line 70 or 82. -/
inductive DirectErr where
  | valueError : String → DirectErr
  | attrError : String → DirectErr
deriving DecidableEq

/-- The external collaborators, out of scope for the core per the spec
and abstracted as oracles.  `selfQuery` is the non-streaming classifier
call (lines 180-182, the returned `PyVal` is `response.json()`; an
`Except.error` is a transport failure or the non-2xx raised by
`raise_for_status`).  `fullHR` and `qaHR` are `similarity_search` on the
two FAISS stores, `qaHR` taking the equality-filter value for
`section_name`.  `rerankModel` is `ranker.rerank` on a built
`RerankRequest`.  `gen` is the streaming generation call: an error means
opening the request or `raise_for_status` failed; on success it yields
the decoded lines delivered by `iter_lines` plus an optional transport
error interrupting the iteration afterwards.  `parseJson` models
`json.loads` applied to a single line (returning `none` when the line is
not valid JSON). -/
structure World where
  selfQuery : PyVal → Except String PyVal
  fullHR : PyVal → Nat → Except String (List Doc)
  qaHR : PyVal → Nat → Option PyVal → Except String (List Doc)
  rerankModel : PyVal → List Passage → Except String (List Passage)
  gen : GenRequest → Except String (List String × Option String)
  parseJson : String → Option PyVal

/-! ### Python string helpers (ASCII model of `\s` and `str.strip`) -/

/-- Whitespace characters recognised by `\s` and by `str.strip()`
(ASCII model). -/
def isSpaceChar (c : Char) : Bool :=
  c = ' ' ∨ c = '\t' ∨ c = '\n' ∨ c = '\r' ∨ c = '\x0b' ∨ c = '\x0c'

/-- Python `str.strip()`: drop leading and trailing whitespace. -/
def pyStrip (s : String) : String :=
  ⟨((s.data.dropWhile isSpaceChar).reverse.dropWhile isSpaceChar).reverse⟩

/-! ### The routing regex, RAG.py line 206:
`re.search(r'Database required:\s*(Yes|No)', assistant_reply, re.IGNORECASE)` -/

/-- Case-insensitive literal match: on success returns the remaining
input.  Models a literal regex fragment under `re.IGNORECASE`. -/
def matchLit : List Char → List Char → Option (List Char)
  | [], cs => some cs
  | _ :: _, [] => none
  | p :: ps, c :: cs => if p.toLower = c.toLower then matchLit ps cs else none

/-- Try the pattern `Database required:\s*(Yes|No)` at the current
position; on success return the characters captured by group 1.  The
greedy `\s*` needs no backtracking because no whitespace character can
start `Yes` or `No`. -/
def matchAt (cs : List Char) : Option (List Char) :=
  match matchLit "Database required:".data cs with
  | none => none
  | some rest =>
    let rest2 := rest.dropWhile isSpaceChar
    match matchLit "Yes".data rest2 with
    | some _ => some (rest2.take 3)
    | none =>
      match matchLit "No".data rest2 with
      | some _ => some (rest2.take 2)
      | none => none

/-- Model of `re.search`: try the pattern at each position left to right, return
the first captured group. -/
def searchGroup : List Char → Option (List Char)
  | [] => none
  | c :: cs =>
    match matchAt (c :: cs) with
    | some g => some g
    | none => searchGroup cs

/-- RAG.py lines 206-212: if the regex matches,
`database_required = match.group(1).strip().lower() == 'yes'` (the
captured group contains no whitespace, so `.strip()` is the identity);
otherwise default to `False`. -/
def routeRequired (reply : String) : Bool :=
  match searchGroup reply.data with
  | none => false
  | some g => decide (g.map Char.toLower = "yes".data)

/-! ### Payload extraction and validation, RAG.py lines 67-85 -/

/-- RAG.py lines 67-73: extract `model`, `options` and the option fields
with their defaults.  `options.get(...)` on a non-dict `options` value
raises `AttributeError` (line 70, before the `messages` validation). -/
def extractParams (payload : List (String × PyVal)) : Except DirectErr Params :=
  let model := (pyGet payload "model").getD (.str "default-model")
  let options := (pyGet payload "options").getD (.obj [])
  match options with
  | .obj os =>
    .ok { model := model
          temperature := (pyGet os "temperature").getD (.num 0.8)
          max_tokens := (pyGet os "num_predict").getD (.num 4096)
          context_length := (pyGet os "num_ctx").getD (.num 8192)
          stream := (pyGet payload "stream").getD (.bool true) }
  | _ => .error (.attrError "options object has no attribute get")

/-- RAG.py lines 68 and 77-79: `messages = payload.get('messages', [])`;
`if not messages or not isinstance(messages, list): raise ValueError`.
The raise happens exactly when the value is not a non-empty list
(an empty list is falsy; every non-list fails the `isinstance` check
whatever its truthiness). -/
def validateMessages (payload : List (String × PyVal)) : Except DirectErr (List PyVal) :=
  match (pyGet payload "messages").getD (.arr []) with
  | .arr (x :: xs) => .ok (x :: xs)
  | _ => .error (.valueError "Invalid messages format")

/-- RAG.py line 82: `user_message = messages[-1].get('content', '')`.
`messages[-1]` on a non-dict raises `AttributeError`; a missing
`content` key yields the empty string. -/
def extractUserMessage (msgs : List PyVal) : Except DirectErr PyVal :=
  match msgs.getLast? with
  | some (.obj fs) => .ok ((pyGet fs "content").getD (.str ""))
  | some _ => .error (.attrError "message has no attribute get")
  | none => .error (.attrError "empty messages")

/-! ### Classifier envelope parsing, RAG.py lines 186-203 -/

/-- RAG.py lines 186-203: extract the assistant reply from the
classifier response envelope.  The `'messages'` branch (line 194)
rebinds the local variable `messages`, so on that path the function
also returns the envelope's list, which replaces the caller's
conversation downstream — this shadowing is modelled by the second
component.  On the `'message'` branch the reply is
`message.get('content', '').strip()`; `.strip()` on a non-string raises
`AttributeError` (caught by the orchestrator's `except`).  A non-dict
envelope raises `TypeError`/`ValueError` in Python on every path
(`d['message']` on a string or list, `'message' in d` on a number);
those uniformly-failing cases are collapsed into one error value. -/
def extractAssistantReply (d : PyVal) :
    Except String (String × Option (List PyVal)) :=
  match d with
  | .obj fs =>
    match pyGet fs "message" with
    | some m =>
      match m with
      | .obj ms =>
        match (pyGet ms "content").getD (.str "") with
        | .str c => .ok (pyStrip c, none)
        | _ => .error "AttributeError: content has no attribute strip"
      | _ => .error "Invalid message format in response"
    | none =>
      match pyGet fs "messages" with
      | some (.arr (x :: xs)) =>
        match (x :: xs).getLast (List.cons_ne_nil x xs) with
        | .obj lm =>
          match (pyGet lm "content").getD (.str "") with
          | .str c => .ok (pyStrip c, some (x :: xs))
          | _ => .error "AttributeError: content has no attribute strip"
        | _ => .error "AttributeError: message has no attribute get"
      | some _ => .error "Invalid messages format in response"
      | none => .error "No message or messages key found in response"
  | _ => .error "TypeError: classifier envelope is not a JSON object"

/-! ### Retrieval, RAG.py lines 230-294 -/

/-- RAG.py lines 243-255: the scoped FAQ loop.  One
`faiss_QA_HR.similarity_search(user_message, k=10, filter=...)` call per
entry of `section_names` (one per coarse-result position, duplicates
included), results appended in loop order.  The filter value is
`doc.metadata.get('section_name')`, hence an `Option`. -/
def scopedSearch (w : World) (userMsg : PyVal) :
    List (Option PyVal) → Except String (List Doc)
  | [] => .ok []
  | n :: rest => do
    let rs ← w.qaHR userMsg 10 n
    let more ← scopedSearch w userMsg rest
    pure (rs ++ more)

/-- RAG.py lines 260-264: build one re-ranker passage from a document. -/
def mkPassage (d : Doc) : Passage :=
  { id := (pyGet d.metadata "ids").getD (.str "")
    text := d.page_content
    meta := d.metadata }

/-- RAG.py lines 260-272: build the `RerankRequest` batch from the
candidates, call the external ranker, and keep the top 3
(`reranked_qa_results[:3]`).  The ranker is called whatever the batch,
including the empty one. -/
def rerankStep (w : World) (query : PyVal) (cands : List Doc) :
    Except String (List Passage) := do
  let passages := cands.map mkPassage
  let scored ← w.rerankModel query passages
  pure (scored.take 3)

/-- RAG.py lines 278 and 285: the rendered context block —
`context_sections = '\n\n'.join([doc.page_content for doc in top_sections])`
with `top_sections = full_hr_candidates[:2]`, wrapped as
`f"Sections:\n{context_sections}\n"`. -/
def assembleContext (coarse : List Doc) : String :=
  "Sections:\n" ++ String.intercalate "\n\n" ((coarse.take 2).map (·.page_content)) ++ "\n"

/-- RAG.py lines 230-287 (steps 3-6): coarse search (k=10), scoped FAQ
search over the top-2 sections, re-ranking, and rendering of the context
block.  `context_faqs` (line 280) is computed from the re-ranked top 3
but does not flow into the returned block (line 285 only uses the
sections). -/
def retrieveContext (w : World) (userMsg : PyVal) : Except String String := do
  let coarse ← w.fullHR userMsg 10
  let topSections := coarse.take 2
  let sectionNames := topSections.map (fun d => pyGet d.metadata "section_name")
  let qaCandidates ← scopedSearch w userMsg sectionNames
  let topFaqs ← rerankStep w userMsg qaCandidates
  let _contextFaqs := String.intercalate "\n\n" (topFaqs.map (·.text))
  let contextSections := String.intercalate "\n\n" (topSections.map (·.page_content))
  pure ("Sections:\n" ++ contextSections ++ "\n")

/-- RAG.py lines 290-293: the system turn inserted before the last
message, carrying the fixed preamble and the rendered context. -/
def sysTurn (context : String) : PyVal :=
  .obj [("role", .str "system"),
        ("content", .str ("Using the provided context from the database for Tech Enerzal to answer the user query.\nContext=\"" ++ context ++ "\""))]

/-- Python `list.insert(-1, x)`: insert immediately before the last
element (at position `length - 1`; on an empty list, at position 0). -/
def pyInsertNeg1 (xs : List PyVal) (x : PyVal) : List PyVal :=
  xs.take (xs.length - 1) ++ x :: xs.drop (xs.length - 1)

/-- RAG.py lines 180-298 (steps 2-6): the classifier call, envelope
parsing (including the line-194 shadowing of `messages`), the regex
routing decision, and — only when the database is required — retrieval
and context injection via `messages.insert(-1, ...)`.  Returns the
conversation that the generation call will receive; an error is any
exception raised on the way (converted to the terminal chunk by the
orchestrator). -/
def routeAndAugment (w : World) (userMsg : PyVal) (msgs : List PyVal) :
    Except String (List PyVal) := do
  let envelope ← w.selfQuery userMsg
  let (reply, shadow) ← extractAssistantReply envelope
  let msgs1 := shadow.getD msgs
  if routeRequired reply then
    let context ← retrieveContext w userMsg
    pure (pyInsertNeg1 msgs1 (sysTurn context))
  else
    pure msgs1

/-! ### Streaming delivery, RAG.py lines 318-363 -/

/-- A minimal model of the escaping `json.dumps` applies to the error
message (backslash, quote and common control characters; other
characters pass through). -/
def jsonEscapeChar (c : Char) : String :=
  if c = '\\' then "\\\\"
  else if c = '"' then "\\\""
  else if c = '\n' then "\\n"
  else if c = '\t' then "\\t"
  else if c = '\r' then "\\r"
  else String.singleton c

/-- Escape a string as `json.dumps` would inside a JSON string. -/
def jsonEscape (s : String) : String :=
  String.join (s.data.map jsonEscapeChar)

/-- RAG.py line 363: the single terminal error chunk
`json.dumps(\x7b"error": f"Error in generating response: \x7bstr(e)\x7d"\x7d)`. -/
def errChunk (msg : String) : String :=
  "\x7b\"error\": \"Error in generating response: " ++ jsonEscape msg ++ "\"\x7d"

/-- RAG.py lines 329-352: handling of one decoded line of the generation
stream.  Empty lines are skipped by `if line:`.  A line that fails
`json.loads` is yielded raw with a newline.  A JSON line is accessed as
`data.get('message', \x7b\x7d)` (raising `AttributeError` when the parsed value
is not a dict), the message must itself be a dict for
`message.get('role')`, roles other than `assistant`/`user` are dropped,
and `content + '\n'` raises `TypeError` when the (defaulted) content is
not a string. -/
def lineChunks (parse : String → Option PyVal) (line : String) :
    Except String (List String) :=
  if line = "" then .ok []
  else
    match parse line with
    | none => .ok [line ++ "\n"]
    | some d =>
      match d with
      | .obj fs =>
        match (pyGet fs "message").getD (.obj []) with
        | .obj ms =>
          let roleOk : Bool :=
            match pyGet ms "role" with
            | some (.str s) => s == "assistant" || s == "user"
            | _ => false
          if roleOk then
            match (pyGet ms "content").getD (.str "") with
            | .str c => .ok [c ++ "\n"]
            | _ => .error "TypeError: can only concatenate str to str"
          else .ok []
        | _ => .error "AttributeError: message has no attribute get"
      | _ => .error "AttributeError: data has no attribute get"

/-- Process the delivered lines in order; the first line whose handling
raises aborts the iteration with that exception (the remaining lines are
never reached). -/
def streamLines (parse : String → Option PyVal) :
    List String → List String × Option String
  | [] => ([], none)
  | l :: rest =>
    match lineChunks parse l with
    | .error e => ([], some e)
    | .ok cs =>
      let (more, err) := streamLines parse rest
      (cs ++ more, err)

/-- RAG.py lines 318-363: open the generation request and relay the
stream.  A failure opening the request (or `raise_for_status`), an
exception while handling a line, or a transport error interrupting the
iteration is caught by the orchestrator's `except` and reported as the
terminal error chunk after the chunks already yielded. -/
def runGeneration (w : World) (req : GenRequest) : List String :=
  match w.gen req with
  | .error e => [errChunk e]
  | .ok (lines, tailErr) =>
    let (cs, abortErr) := streamLines w.parseJson lines
    match abortErr with
    | some e => cs ++ [errChunk e]
    | none =>
      match tailErr with
      | some e => cs ++ [errChunk e]
      | none => cs

/-- RAG.py lines 87-363: the body of the `try:` block.  Any failure in
routing, retrieval or generation ends the chunk sequence with exactly
one terminal error chunk. -/
def pipelineChunks (w : World) (userMsg : PyVal) (msgs : List PyVal)
    (p : Params) : List String :=
  match routeAndAugment w userMsg msgs with
  | .error e => [errChunk e]
  | .ok ams =>
    runGeneration w
      { model := p.model, messages := ams, temperature := p.temperature,
        num_predict := p.max_tokens, num_ctx := p.context_length,
        keep_alive := .num 0 }

/-- RAG.py lines 47-363: the public entry point.  The steps before the
`try:` block run in source order — option extraction (line 70),
`messages` validation (lines 77-79), user-message extraction (line 82) —
and their exceptions escape directly; everything else yields the chunk
sequence of `pipelineChunks`.  (`chat_history = messages[:-1]` at line
85 is dead code and is omitted.) -/
def generate_stream (w : World) (payload : List (String × PyVal)) :
    Except DirectErr (List String) := do
  let p ← extractParams payload
  let msgs ← validateMessages payload
  let userMsg ← extractUserMessage msgs
  pure (pipelineChunks w userMsg msgs p)

/-! ### Spec-side definitions used to state the claims -/

/-- Whether an `Except` computation ended in the error channel. -/
def isErr {ε α : Type} : Except ε α → Bool
  | .error _ => true
  | .ok _ => false

/-- The exact condition under which `generate_stream` raises an
exception directly instead of yielding chunks: `options` present but
not a dict (line 70), `messages` missing / not a list / empty
(lines 77-79), or the last message not a dict (line 82). -/
def directRaise (payload : List (String × PyVal)) : Bool :=
  (match (pyGet payload "options").getD (.obj []) with
   | .obj _ => false
   | _ => true) ||
  (match (pyGet payload "messages").getD (.arr []) with
   | .arr (x :: xs) =>
     (match (x :: xs).getLast? with
      | some (.obj _) => false
      | _ => true)
   | _ => true)

/-- The output-sequence shape required by the error-propagation policy:
either every chunk is content (newline-terminated), or the sequence is
newline-terminated content followed by exactly one terminal error
chunk. -/
def terminalShape (cs : List String) : Prop :=
  (∀ c ∈ cs, ∃ s, c = s ++ "\n") ∨
  ∃ pre e, cs = pre ++ [errChunk e] ∧ ∀ c ∈ pre, ∃ s, c = s ++ "\n"

/-- Spec-side reading of `message.role` from a parsed stream line. -/
def specRole (d : PyVal) : Option String :=
  match d with
  | .obj fs =>
    match (pyGet fs "message").getD (.obj []) with
    | .obj ms =>
      match pyGet ms "role" with
      | some (.str s) => some s
      | _ => none
    | _ => none
  | _ => none

/-- Spec-side reading of `message.content` (defaulted to the empty
string) from a parsed stream line. -/
def specContent (d : PyVal) : String :=
  match d with
  | .obj fs =>
    match (pyGet fs "message").getD (.obj []) with
    | .obj ms =>
      match (pyGet ms "content").getD (.str "") with
      | .str c => c
      | _ => ""
    | _ => ""
  | _ => ""

/-- The per-line chunk behaviour stated by the (amended) streaming-filter
claim, written from the spec's words: empty lines are dropped, non-JSON
lines are emitted raw with a line break, JSON lines are emitted as
`message.content` plus a line break when `message.role` is `assistant`
or `user` and dropped otherwise. -/
def specLineChunks (parse : String → Option PyVal) (l : String) : List String :=
  if l = "" then []
  else
    match parse l with
    | none => [l ++ "\n"]
    | some d =>
      if specRole d = some "assistant" ∨ specRole d = some "user"
      then [specContent d ++ "\n"]
      else []

/-- Lines on which the source's handler does not raise: empty, non-JSON,
or a JSON object whose defaulted `message` is a dict and whose content
is a string whenever the role passes the filter. -/
def lineOk (parse : String → Option PyVal) (l : String) : Bool :=
  if l = "" then true
  else
    match parse l with
    | none => true
    | some (.obj fs) =>
      match (pyGet fs "message").getD (.obj []) with
      | .obj ms =>
        match pyGet ms "role" with
        | some (.str s) =>
          if s == "assistant" || s == "user" then
            match (pyGet ms "content").getD (.str "") with
            | .str _ => true
            | _ => false
          else true
        | _ => true
      | _ => false
    | some _ => false


/-! ### Concrete worlds used by witnesses and counterexamples -/

/-- A world whose external scorer fails; every other collaborator is
inert. -/
def W1 : World :=
  { selfQuery := fun _ => .ok .null
    fullHR := fun _ _ => .ok []
    qaHR := fun _ _ _ => .ok []
    rerankModel := fun _ _ => .error "scorer unavailable"
    gen := fun _ => .ok ([], none)
    parseJson := fun _ => none }

/-- A world whose external scorer maps every batch to the empty result. -/
def W1b : World :=
  { selfQuery := fun _ => .ok .null
    fullHR := fun _ _ => .ok []
    qaHR := fun _ _ _ => .ok []
    rerankModel := fun _ _ => .ok []
    gen := fun _ => .ok ([], none)
    parseJson := fun _ => none }

/-- A world whose classifier answers through the `'messages'` envelope
shape with the verdict `Database required: No`. -/
def W4 : World :=
  { selfQuery := fun _ =>
      .ok (.obj [("messages", .arr [.obj [("content", .str "Database required: No")]])])
    fullHR := fun _ _ => .ok []
    qaHR := fun _ _ _ => .ok []
    rerankModel := fun _ _ => .ok []
    gen := fun _ => .ok ([], none)
    parseJson := fun _ => none }

/-- The input conversation used by the shadowing failing input. -/
def C4msgs : List PyVal :=
  [.obj [("role", .str "user"), ("content", .str "Hello!")]]

/-- A world whose classifier call fails with an HTTP error. -/
def W6 : World :=
  { selfQuery := fun _ => .error "500 Server Error"
    fullHR := fun _ _ => .ok [⟨"sec", []⟩]
    qaHR := fun _ _ _ => .ok [⟨"faq", []⟩]
    rerankModel := fun _ _ => .ok []
    gen := fun _ => .ok (["line"], none)
    parseJson := fun _ => none }

/-- The FAQ result produced by `W7` for each section filter value. -/
def F7 (n : Option PyVal) : List Doc :=
  match n with
  | some (.str s) => [⟨"faq for " ++ s, []⟩]
  | _ => []

/-- A world whose FAQ index answers deterministically per filter value. -/
def W7 : World :=
  { selfQuery := fun _ => .ok .null
    fullHR := fun _ _ => .ok []
    qaHR := fun _ _ n => .ok (F7 n)
    rerankModel := fun _ _ => .ok []
    gen := fun _ => .ok ([], none)
    parseJson := fun _ => none }

/-- Coarse results whose top two entries share a section name. -/
def C7coarse : List Doc :=
  [⟨"leave policy text", [("section_name", .str "Leave")]⟩,
   ⟨"more leave text", [("section_name", .str "Leave")]⟩,
   ⟨"attendance text", [("section_name", .str "Attendance")]⟩]

/-- The `json.loads` model used by the streaming-filter witness: the
three generation-backend lines of testable property P6. -/
def P8parse (s : String) : Option PyVal :=
  if s = "A" then
    some (.obj [("message", .obj [("role", .str "assistant"), ("content", .str "Hi")])])
  else if s = "S" then
    some (.obj [("message", .obj [("role", .str "system"), ("content", .str "ignored")])])
  else none

/-- A world for the retrieval-to-context witness: two coarse sections,
inert FAQ index, successful scorer. -/
def W9 : World :=
  { selfQuery := fun _ => .ok .null
    fullHR := fun _ _ => .ok [⟨"Leave Policy text", [("section_name", .str "Leave")]⟩,
                              ⟨"Attendance text", [("section_name", .str "Attendance")]⟩]
    qaHR := fun _ _ _ => .ok []
    rerankModel := fun _ _ => .ok [⟨.str "1", "ranked faq", []⟩]
    gen := fun _ => .ok ([], none)
    parseJson := fun _ => none }

/-- An inert world: classifier replies `Database required: No` through
the ordinary `'message'` envelope, generation delivers nothing. -/
def WT : World :=
  { selfQuery := fun _ =>
      .ok (.obj [("message", .obj [("role", .str "assistant"), ("content", .str "Database required: No")])])
    fullHR := fun _ _ => .ok []
    qaHR := fun _ _ _ => .ok []
    rerankModel := fun _ _ => .ok []
    gen := fun _ => .ok (["hello"], none)
    parseJson := fun _ => none }

/-! ### Helper lemmas -/

theorem exceptBind_ok {ε α β : Type} (a : α) (f : α → Except ε β) :
    (Except.ok a >>= f : Except ε β) = f a := rfl

theorem exceptBind_error {ε α β : Type} (e : ε) (f : α → Except ε β) :
    (Except.error e >>= f : Except ε β) = Except.error e := rfl

theorem strData (a b : String) : (a ++ b).data = a.data ++ b.data := by
  cases a; cases b; rfl

/-- Inserting before the last element of a list presented as
`ys ++ [z]`. -/
theorem pyInsertNeg1_append (ys : List PyVal) (z x : PyVal) :
    pyInsertNeg1 (ys ++ [z]) x = ys ++ [x, z] := by
  simp [pyInsertNeg1]

/-- Claim C3: for every non-empty conversation and every context block,
`messages.insert(-1, ...)` (RAG.py line 290) returns the conversation
with exactly one system turn inserted at position `length - 1`: every
turn before the insertion point is unchanged, and the final turn is
unchanged and remains last. -/
theorem inject_placement (cnv : List PyVal) (h : cnv ≠ []) (block : String) :
    pyInsertNeg1 cnv (sysTurn block)
      = cnv.dropLast ++ [sysTurn block, cnv.getLast h] := by
  conv_lhs => rw [← List.dropLast_append_getLast h]
  rw [pyInsertNeg1_append]

/-- Witness for `inject_placement` on a one-turn conversation. -/
theorem inject_placement_witness :
    pyInsertNeg1 [PyVal.str "u"] (sysTurn "B") = [sysTurn "B", PyVal.str "u"] := by
  have h := inject_placement [PyVal.str "u"] (by simp) "B"
  simpa using h

/-- Claim C1 counterexample: with an empty candidate sequence the
re-ranking step (RAG.py lines 260-272) still invokes the external
scorer — under a scorer that fails on the empty batch the step does not
return the empty sequence but aborts with the scorer's error. -/
theorem rerank_empty_cex :
    rerankStep W1 (.str "q") [] = .error "scorer unavailable" ∧
    (Except.error "scorer unavailable" : Except String (List Passage)) ≠ .ok [] :=
  ⟨rfl, by simp⟩

/-- Claim C1 (amended): the re-ranking step with an empty candidate
sequence passes the empty passage batch to the external scorer; when the
scorer succeeds the step returns its result truncated to the top 3
(hence the empty sequence exactly when the scorer returns the empty
sequence), and when the scorer fails the step propagates the failure. -/
theorem rerank_empty (w : World) (q : PyVal) :
    (∀ rs, w.rerankModel q [] = .ok rs → rerankStep w q [] = .ok (rs.take 3)) ∧
    (∀ e, w.rerankModel q [] = .error e → rerankStep w q [] = .error e) := by
  constructor
  · intro rs h
    simp [rerankStep, h, exceptBind_ok]
  · intro e h
    simp [rerankStep, h, exceptBind_error]

/-- Witness for `rerank_empty`: a scorer returning the empty result on
the empty batch makes the step return the empty sequence. -/
theorem rerank_empty_witness :
    rerankStep W1b (.str "q") [] = .ok ([] : List Passage) :=
  (rerank_empty W1b (.str "q")).1 [] rfl

/-- The scoped FAQ loop concatenates, in order, the per-filter-value
results of the FAQ index. -/
theorem scopedSearch_concat (w : World) (q : PyVal) (f : Option PyVal → List Doc)
    (h : ∀ n, w.qaHR q 10 n = .ok (f n)) :
    ∀ names : List (Option PyVal),
      scopedSearch w q names = .ok ((names.map f).flatten) := by
  intro names
  induction names with
  | nil => simp [scopedSearch]
  | cons n rest ih => simp [scopedSearch, h n, ih, exceptBind_ok]

/-- Claim C7: scoped fine retrieval (RAG.py lines 238-253) issues one
FAQ-index similarity search per coarse-result position among the top
two — each with an equality filter on that position's `section_name`
and `k = 10` — and returns the concatenation of the per-position
results in the order of the coarse section list; a repeated section
name is queried once per position, duplicating its candidates. -/
theorem scoped_search_ordering (w : World) (q : PyVal) (coarse : List Doc)
    (f : Option PyVal → List Doc) (h : ∀ n, w.qaHR q 10 n = .ok (f n)) :
    scopedSearch w q ((coarse.take 2).map (fun d => pyGet d.metadata "section_name"))
      = .ok ((((coarse.take 2).map (fun d => pyGet d.metadata "section_name")).map f).flatten) :=
  scopedSearch_concat w q f h _

/-- Witness for `scoped_search_ordering`: the top-2 coarse results share
the section name `Leave`, so its FAQ result is retrieved twice and
duplicated in the concatenation. -/
theorem scoped_search_ordering_witness :
    scopedSearch W7 (.str "q")
        ((C7coarse.take 2).map (fun d => pyGet d.metadata "section_name"))
      = .ok [⟨"faq for Leave", []⟩, ⟨"faq for Leave", []⟩] := by
  have h := scoped_search_ordering W7 (.str "q") C7coarse F7 (fun n => rfl)
  simpa [C7coarse, F7] using h

/-- Claim C9: whenever retrieval succeeds, the rendered context block is
exactly the coarse top sections' raw text, newline-joined under the
`"Sections:"` heading; the value returned by the FAQ re-ranking is
computed but never enters the block (the block is fully determined by
the coarse results). -/
theorem context_sections_only (w : World) (u : PyVal) (c : String) (docs : List Doc)
    (hf : w.fullHR u 10 = .ok docs) (h : retrieveContext w u = .ok c) :
    c = assembleContext docs := by
  unfold retrieveContext at h
  rw [hf, exceptBind_ok] at h
  dsimp only at h
  cases hs : scopedSearch w u ((docs.take 2).map fun d => pyGet d.metadata "section_name") with
  | error e => rw [hs, exceptBind_error] at h; exact absurd h (by simp)
  | ok qas =>
    rw [hs, exceptBind_ok] at h
    cases hr : rerankStep w u qas with
    | error e => rw [hr, exceptBind_error] at h; exact absurd h (by simp)
    | ok tops =>
      rw [hr, exceptBind_ok] at h
      simp only [pure, Except.pure, Except.ok.injEq] at h
      rw [← h, assembleContext]

/-- Witness for `context_sections_only`: two coarse sections render as
the `Sections:`-headed block, while the scorer's nonempty result is
absent from it. -/
theorem context_sections_only_witness :
    ("Sections:\nLeave Policy text\n\nAttendance text\n" : String)
      = assembleContext [⟨"Leave Policy text", [("section_name", .str "Leave")]⟩,
                         ⟨"Attendance text", [("section_name", .str "Attendance")]⟩] :=
  context_sections_only W9 (.str "q") _ _ rfl rfl

/-- Claim C6: a transport failure, non-2xx status, or an envelope
without a usable `message`/`messages` key from the classifier call
aborts the whole pipeline with the single terminal error chunk, for
every behaviour of the retrieval indices, the scorer and the generation
backend — so no retrieval step runs or influences the outcome — rather
than being treated as `required = false`. -/
theorem classifier_failure_aborts
    (sq : PyVal → Except String PyVal)
    (fhr : PyVal → Nat → Except String (List Doc))
    (qa : PyVal → Nat → Option PyVal → Except String (List Doc))
    (rr : PyVal → List Passage → Except String (List Passage))
    (g : GenRequest → Except String (List String × Option String))
    (pj : String → Option PyVal)
    (u : PyVal) (msgs : List PyVal) (p : Params) (e : String)
    (h : sq u = .error e ∨ ∃ d, sq u = .ok d ∧ extractAssistantReply d = .error e) :
    pipelineChunks ⟨sq, fhr, qa, rr, g, pj⟩ u msgs p = [errChunk e] := by
  unfold pipelineChunks routeAndAugment
  rcases h with h | ⟨d, hd, he⟩
  · simp [h, exceptBind_error]
  · simp [hd, he, exceptBind_ok, exceptBind_error]

/-- Witness for `classifier_failure_aborts`: an HTTP 500 from the
classifier produces exactly the terminal error chunk. -/
theorem classifier_failure_aborts_witness :
    pipelineChunks W6 (.str "u") [PyVal.obj []]
        ⟨.str "m", .num 1, .num 1, .num 1, .bool true⟩
      = [errChunk "500 Server Error"] :=
  classifier_failure_aborts W6.selfQuery W6.fullHR W6.qaHR W6.rerankModel W6.gen
    W6.parseJson (.str "u") [PyVal.obj []]
    ⟨.str "m", .num 1, .num 1, .num 1, .bool true⟩ "500 Server Error" (Or.inl rfl)

/-- Claim C4 (code defect): when the classifier envelope answers through
its `'messages'` key, RAG.py line 194 rebinds the local variable
`messages`, so even though routing resolves to `required = false` the
conversation passed on to the generation call is the classifier
envelope's message list, not the caller's conversation. -/
theorem no_retrieval_passthrough_bug :
    routeAndAugment W4 (.str "Hello!") C4msgs
      = .ok [PyVal.obj [("content", PyVal.str "Database required: No")]] ∧
    ([PyVal.obj [("content", PyVal.str "Database required: No")]] : List PyVal) ≠ C4msgs := by
  constructor
  · rfl
  · simp [C4msgs]

/-- The search returns no match exactly when the pattern matches at no
position. -/
theorem searchGroup_none (cs : List Char) (h : ∀ i, matchAt (cs.drop i) = none) :
    searchGroup cs = none := by
  induction cs with
  | nil => rfl
  | cons c t ih =>
    have h0 := h 0
    rw [List.drop_zero] at h0
    rw [searchGroup, h0]
    exact ih (fun i => by have h2 := h (i + 1); rwa [List.drop_succ_cons] at h2)

/-- The search returns the group of the leftmost position where the
pattern matches. -/
theorem searchGroup_some (cs : List Char) (i : Nat) (g : List Char)
    (hm : matchAt (cs.drop i) = some g)
    (hmin : ∀ j, j < i → matchAt (cs.drop j) = none) :
    searchGroup cs = some g := by
  induction cs generalizing i with
  | nil =>
    rw [List.drop_nil] at hm
    have hnone : matchAt [] = none := by decide
    rw [hnone] at hm
    exact Option.noConfusion hm
  | cons c t ih =>
    cases i with
    | zero =>
      rw [List.drop_zero] at hm
      rw [searchGroup, hm]
    | succ i2 =>
      have h0 := hmin 0 (Nat.succ_pos i2)
      rw [List.drop_zero] at h0
      rw [searchGroup, h0]
      rw [List.drop_succ_cons] at hm
      exact ih i2 hm (fun j hj => by
        have h2 := hmin (j + 1) (Nat.succ_lt_succ hj)
        rwa [List.drop_succ_cons] at h2)

/-- Claim C5: when the case-insensitive pattern
`Database required:\s*(Yes|No)` occurs nowhere in the classifier reply,
routing resolves to `required = false`; when it occurs, with captured
group `g` at the leftmost matching position, routing resolves to `true`
exactly when `g` lowercases to `yes`. -/
theorem classifier_regex_routing (reply : String) :
    ((∀ i, matchAt (reply.data.drop i) = none) → routeRequired reply = false) ∧
    (∀ i g, matchAt (reply.data.drop i) = some g →
      (∀ j, j < i → matchAt (reply.data.drop j) = none) →
      routeRequired reply = decide (g.map Char.toLower = "yes".data)) := by
  constructor
  · intro h
    unfold routeRequired
    rw [searchGroup_none reply.data h]
  · intro i g hm hmin
    unfold routeRequired
    rw [searchGroup_some reply.data i g hm hmin]

/-- Witness for `classifier_regex_routing` at the verdict
`Database required: Yes`, matching at position 0. -/
theorem classifier_regex_routing_witness :
    routeRequired "Database required: Yes" = true := by
  have h := (classifier_regex_routing "Database required: Yes").2 0 ['Y', 'e', 's']
    (by decide) (fun j hj => absurd hj (Nat.not_lt_zero j))
  rw [h]
  decide

/-- Claim C10: absent optional payload fields receive the fixed defaults
before any external call — `model` gets `default-model`,
`options.temperature` 0.8, `options.num_predict` 4096, `options.num_ctx`
8192 — a last message lacking `content` yields the empty string as the
user query, and the pipeline then runs with exactly those values. -/
theorem payload_defaults (w : World) (payload : List (String × PyVal))
    (msgs : List PyVal) (fs : List (String × PyVal))
    (hmodel : pyGet payload "model" = none)
    (hopts : pyGet payload "options" = none)
    (hlast : msgs.getLast? = some (.obj fs))
    (hcontent : pyGet fs "content" = none)
    (hv : validateMessages payload = .ok msgs) :
    extractParams payload
      = .ok { model := .str "default-model", temperature := .num 0.8,
              max_tokens := .num 4096, context_length := .num 8192,
              stream := (pyGet payload "stream").getD (.bool true) } ∧
    extractUserMessage msgs = .ok (.str "") ∧
    generate_stream w payload
      = .ok (pipelineChunks w (.str "") msgs
          { model := .str "default-model", temperature := .num 0.8,
            max_tokens := .num 4096, context_length := .num 8192,
            stream := (pyGet payload "stream").getD (.bool true) }) := by
  have hp : extractParams payload
      = .ok { model := .str "default-model", temperature := .num 0.8,
              max_tokens := .num 4096, context_length := .num 8192,
              stream := (pyGet payload "stream").getD (.bool true) } := by
    unfold extractParams
    rw [hmodel, hopts]
    simp [pyGet]
  have hu : extractUserMessage msgs = .ok (.str "") := by
    unfold extractUserMessage
    rw [hlast]
    show Except.ok ((pyGet fs "content").getD (PyVal.str "")) = _
    rw [hcontent, Option.getD_none]
  refine ⟨hp, hu, ?_⟩
  unfold generate_stream
  rw [hp, exceptBind_ok, hv, exceptBind_ok, hu, exceptBind_ok]
  rfl

/-- The payload of the defaults witness: only `messages`, whose single
turn has no `content`. -/
def C10payload : List (String × PyVal) :=
  [("messages", .arr [.obj [("role", .str "user")]])]

/-- The messages list of the defaults witness. -/
def C10msgs : List PyVal := [.obj [("role", .str "user")]]

/-- Witness for `payload_defaults` on a payload carrying only a
content-less user turn. -/
theorem payload_defaults_witness :
    extractParams C10payload
      = .ok { model := .str "default-model", temperature := .num 0.8,
              max_tokens := .num 4096, context_length := .num 8192,
              stream := (pyGet C10payload "stream").getD (.bool true) } ∧
    extractUserMessage C10msgs = .ok (.str "") ∧
    generate_stream WT C10payload
      = .ok (pipelineChunks WT (.str "") C10msgs
          { model := .str "default-model", temperature := .num 0.8,
            max_tokens := .num 4096, context_length := .num 8192,
            stream := (pyGet C10payload "stream").getD (.bool true) }) :=
  payload_defaults WT C10payload C10msgs [("role", .str "user")] rfl rfl rfl rfl rfl


/-- On a non-raising line, the source's per-line handler produces
exactly the chunks described by the spec-side filter. -/
theorem lineChunks_ok_of_lineOk (parse : String → Option PyVal) (l : String)
    (h : lineOk parse l = true) :
    lineChunks parse l = .ok (specLineChunks parse l) := by
  by_cases hl : l = ""
  · simp [lineChunks, specLineChunks, hl]
  · unfold lineOk at h
    rw [if_neg hl] at h
    cases hp : parse l with
    | none => simp [lineChunks, specLineChunks, hl, hp]
    | some d =>
      rw [hp] at h
      cases d with
      | obj fs =>
        dsimp only at h
        cases hm : (pyGet fs "message").getD (.obj []) with
        | obj ms =>
          simp only [hm] at h
          cases hr : pyGet ms "role" with
          | none => simp [lineChunks, specLineChunks, specRole, specContent, hl, hp, hm, hr]
          | some v =>
            simp only [hr] at h
            cases v with
            | str s =>
              by_cases hs : s = "assistant" ∨ s = "user"
              · have hcond : (s == "assistant" || s == "user") = true := by
                  rcases hs with hs2 | hs2 <;> simp [hs2]
                cases hc : (pyGet ms "content").getD (.str "") with
                | str c =>
                  rcases hs with hs | hs <;>
                    simp [lineChunks, specLineChunks, specRole, specContent,
                          hl, hp, hm, hr, hc, hs]
                | obj a => simp [hcond, hc] at h
                | arr a => simp [hcond, hc] at h
                | num a => simp [hcond, hc] at h
                | bool a => simp [hcond, hc] at h
                | null => simp [hcond, hc] at h
              · rw [not_or] at hs
                simp [lineChunks, specLineChunks, specRole, specContent,
                      hl, hp, hm, hr, hs.1, hs.2]
            | obj a => simp [lineChunks, specLineChunks, specRole, specContent, hl, hp, hm, hr]
            | arr a => simp [lineChunks, specLineChunks, specRole, specContent, hl, hp, hm, hr]
            | num a => simp [lineChunks, specLineChunks, specRole, specContent, hl, hp, hm, hr]
            | bool a => simp [lineChunks, specLineChunks, specRole, specContent, hl, hp, hm, hr]
            | null => simp [lineChunks, specLineChunks, specRole, specContent, hl, hp, hm, hr]
        | arr a => rw [hm] at h; simp at h
        | str a => rw [hm] at h; simp at h
        | num a => rw [hm] at h; simp at h
        | bool a => rw [hm] at h; simp at h
        | null => rw [hm] at h; simp at h
      | arr a => simp at h
      | str a => simp at h
      | num a => simp at h
      | bool a => simp at h
      | null => simp at h

/-- Claim C8 counterexample: an empty generation-stream line does not
parse as JSON, yet the source drops it (`if line:` at RAG.py line 330)
rather than emitting the raw line followed by a line break as the claim
states for every non-JSON line. -/
theorem stream_chunk_filter_cex :
    lineChunks (fun _ => none) "" = .ok [] ∧ ([] : List String) ≠ ["" ++ "\n"] :=
  ⟨rfl, by decide⟩

/-- Claim C8 (amended): for generation-stream lines that do not raise —
each being empty, non-JSON, or a JSON object whose defaulted `message`
is an object with a string (or absent) `content` wherever the role
passes the filter — the emitted chunks are, per line and in order:
nothing for an empty line; the raw line plus a line break for a
non-JSON line; `message.content` plus a line break when `message.role`
is `assistant` or `user`; and nothing for any other role.  (Lines
outside this set abort the stream with the terminal error instead.) -/
theorem stream_chunk_filter (parse : String → Option PyVal) (lines : List String)
    (h : ∀ l ∈ lines, lineOk parse l = true) :
    streamLines parse lines = ((lines.map (specLineChunks parse)).flatten, none) := by
  induction lines with
  | nil => rfl
  | cons l rest ih =>
    have hl := h l (List.mem_cons_self l rest)
    rw [streamLines, lineChunks_ok_of_lineOk parse l hl]
    rw [ih (fun x hx => h x (List.mem_cons_of_mem l hx))]
    simp

/-- Witness for `stream_chunk_filter`: the three lines of testable
property P6 produce exactly the chunks `Hi\n` and `not json\n`. -/
theorem stream_chunk_filter_witness :
    streamLines P8parse ["A", "S", "not json"] = (["Hi\n", "not json\n"], none) := by
  have h := stream_chunk_filter P8parse ["A", "S", "not json"] (by decide)
  rw [h]
  decide

/-- A line whose handling returns chunks (rather than raising) is in the
non-raising set. -/
theorem lineOk_of_lineChunks_ok (parse : String → Option PyVal) (l : String)
    (cs : List String) (h : lineChunks parse l = .ok cs) :
    lineOk parse l = true := by
  unfold lineChunks at h
  unfold lineOk
  by_cases hl : l = ""
  · rw [if_pos hl]
  · rw [if_neg hl] at h ⊢
    cases hp : parse l with
    | none => rfl
    | some d =>
      rw [hp] at h
      cases d with
      | obj fs =>
        dsimp only at h ⊢
        cases hm : (pyGet fs "message").getD (.obj []) with
        | obj ms =>
          simp only [hm] at h ⊢
          cases hr : pyGet ms "role" with
          | none => simp [hr]
          | some v =>
            cases v with
            | str s =>
              simp only [hr] at h ⊢
              by_cases hb : (s == "assistant" || s == "user") = true
              · rw [if_pos hb]
                cases hc : (pyGet ms "content").getD (.str "") with
                | str c => rfl
                | obj a => simp [hb, hc] at h
                | arr a => simp [hb, hc] at h
                | num a => simp [hb, hc] at h
                | bool a => simp [hb, hc] at h
                | null => simp [hb, hc] at h
              · rw [if_neg hb]
            | obj a => simp [hr]
            | arr a => simp [hr]
            | num a => simp [hr]
            | bool a => simp [hr]
            | null => simp [hr]
        | arr a => simp [hm] at h
        | str a => simp [hm] at h
        | num a => simp [hm] at h
        | bool a => simp [hm] at h
        | null => simp [hm] at h
      | arr a => simp at h
      | str a => simp at h
      | num a => simp at h
      | bool a => simp at h
      | null => simp at h

/-- Every chunk described by the spec-side filter is newline-terminated
content. -/
theorem specLineChunks_newline (parse : String → Option PyVal) (l : String) :
    ∀ c ∈ specLineChunks parse l, ∃ s, c = s ++ "\n" := by
  unfold specLineChunks
  by_cases hl : l = ""
  · simp [hl]
  · rw [if_neg hl]
    cases hp : parse l with
    | none =>
      dsimp only
      intro c hc
      rw [List.mem_singleton] at hc
      exact ⟨l, hc⟩
    | some d =>
      dsimp only
      by_cases hrole : specRole d = some "assistant" ∨ specRole d = some "user"
      · rw [if_pos hrole]
        intro c hc
        rw [List.mem_singleton] at hc
        exact ⟨specContent d, hc⟩
      · rw [if_neg hrole]
        simp

/-- Every chunk the source's per-line handler yields is
newline-terminated content. -/
theorem lineChunks_newline (parse : String → Option PyVal) (l : String)
    (cs : List String) (h : lineChunks parse l = .ok cs) :
    ∀ c ∈ cs, ∃ s, c = s ++ "\n" := by
  have hok := lineOk_of_lineChunks_ok parse l cs h
  have h2 := lineChunks_ok_of_lineOk parse l hok
  rw [h] at h2
  injection h2 with h3
  intro c hc
  rw [h3] at hc
  exact specLineChunks_newline parse l c hc

/-- Every chunk delivered before a streaming abort is newline-terminated
content. -/
theorem streamLines_newline (parse : String → Option PyVal) (lines : List String) :
    ∀ c ∈ (streamLines parse lines).1, ∃ s, c = s ++ "\n" := by
  induction lines with
  | nil => simp [streamLines]
  | cons l rest ih =>
    unfold streamLines
    cases hc : lineChunks parse l with
    | error e => simp
    | ok cs =>
      cases hsr : streamLines parse rest with
      | mk more err =>
        dsimp only
        intro c hmem
        rw [List.mem_append] at hmem
        rcases hmem with h1 | h2
        · exact lineChunks_newline parse l cs hc c h1
        · rw [hsr] at ih
          exact ih c h2

/-- The character data of the terminal error chunk, ending in the two
closing JSON delimiters. -/
theorem errChunk_data (e : String) :
    (errChunk e).data
      = ("\x7b\"error\": \"Error in generating response: ".data
          ++ (jsonEscape e).data) ++ ['\x22', '\x7d'] := by
  unfold errChunk
  rw [strData, strData]

/-- The terminal error chunk is never a newline-terminated content
chunk. -/
theorem errChunk_ne_content (e s : String) : errChunk e ≠ s ++ "\n" := by
  intro h
  have h2 : (errChunk e).data.getLast? = (s ++ "\n").data.getLast? := by rw [h]
  rw [errChunk_data, strData] at h2
  rw [show ("\n" : String).data = ['\n'] from rfl] at h2
  rw [List.getLast?_append_cons, List.getLast?_append_cons] at h2
  exact absurd h2 (by decide)

/-- The chunk sequence relayed from the generation call has the
terminal-error shape. -/
theorem runGeneration_shape (w : World) (req : GenRequest) :
    terminalShape (runGeneration w req) := by
  unfold runGeneration
  cases hg : w.gen req with
  | error e => right; exact ⟨[], e, rfl, by simp⟩
  | ok lt =>
    obtain ⟨lines, tailErr⟩ := lt
    dsimp only
    cases hsl : streamLines w.parseJson lines with
    | mk cs abortErr =>
      have hcs : ∀ c ∈ cs, ∃ s, c = s ++ "\n" := by
        have h := streamLines_newline w.parseJson lines
        rw [hsl] at h
        exact h
      dsimp only
      cases abortErr with
      | some e => right; exact ⟨cs, e, rfl, hcs⟩
      | none =>
        cases tailErr with
        | some e => right; exact ⟨cs, e, rfl, hcs⟩
        | none => left; exact hcs

/-- The whole pipeline's chunk sequence has the terminal-error shape. -/
theorem pipelineChunks_shape (w : World) (u : PyVal) (msgs : List PyVal)
    (p : Params) : terminalShape (pipelineChunks w u msgs p) := by
  unfold pipelineChunks
  cases hr : routeAndAugment w u msgs with
  | error e => right; exact ⟨[], e, rfl, by simp⟩
  | ok ams => exact runGeneration_shape w _

/-- A successful run of the entry point yields a chunk sequence of the
terminal-error shape. -/
theorem generate_stream_ok (w : World) (payload : List (String × PyVal))
    (cs : List String) (h : generate_stream w payload = .ok cs) :
    terminalShape cs := by
  unfold generate_stream at h
  cases hp : extractParams payload with
  | error e => rw [hp, exceptBind_error] at h; exact Except.noConfusion h
  | ok p =>
    rw [hp, exceptBind_ok] at h
    cases hv : validateMessages payload with
    | error e => rw [hv, exceptBind_error] at h; exact Except.noConfusion h
    | ok msgs =>
      rw [hv, exceptBind_ok] at h
      cases hu : extractUserMessage msgs with
      | error e => rw [hu, exceptBind_error] at h; exact Except.noConfusion h
      | ok u =>
        rw [hu, exceptBind_ok] at h
        have h2 : pipelineChunks w u msgs p = cs := by
          injection h with h3
        rw [← h2]
        exact pipelineChunks_shape w u msgs p

/-- The payload of the error-channel counterexample: `messages` is a
non-empty list whose only (hence last) element is a bare string. -/
def C2badPayload : List (String × PyVal) := [("messages", .arr [.str "hi"])]

/-- A well-formed payload for the error-channel witness. -/
def C2payload : List (String × PyVal) :=
  [("messages", .arr [.obj [("role", .str "user"), ("content", .str "Hi")]])]

/-- Claim C2 counterexample: a payload whose `messages` is a non-empty
list (so the claimed invalid-input condition does not hold) still makes
`generate_stream` raise directly, because `messages[-1].get` at RAG.py
line 82 runs outside the `try:` block and its last message is not a
dict. -/
theorem error_channel_cex :
    validateMessages C2badPayload = .ok [PyVal.str "hi"] ∧
    isErr (generate_stream WT C2badPayload) = true :=
  ⟨rfl, rfl⟩

/-- Claim C2 (amended): `generate_stream` raises a direct exception if
and only if `messages` is missing, not a list, or empty, or `options`
is present but not a mapping, or the last message is not a mapping —
each before any chunk is yielded; on every other input the call yields
a sequence that is either newline-terminated content throughout, or
newline-terminated content followed by exactly one terminal chunk of
the shape `errChunk msg` as the final item (the error chunk itself is
never a content chunk, so it occurs exactly once and last). -/
theorem error_channel (w : World) (payload : List (String × PyVal)) :
    isErr (generate_stream w payload) = directRaise payload ∧
    (directRaise payload = false →
      ∃ cs, generate_stream w payload = .ok cs ∧ terminalShape cs) ∧
    (∀ e s, errChunk e ≠ s ++ "\n") := by
  have hiff : isErr (generate_stream w payload) = directRaise payload := by
    unfold generate_stream extractParams validateMessages extractUserMessage directRaise
    cases hop : (pyGet payload "options").getD (.obj [])
    case obj os =>
      cases hmsg : (pyGet payload "messages").getD (.arr [])
      case arr ms =>
        cases ms with
        | nil => rfl
        | cons x xs =>
          simp only [exceptBind_ok]
          cases hl : (x :: xs).getLast? with
          | none => rfl
          | some v => cases v <;> rfl
      all_goals rfl
    all_goals rfl
  refine ⟨hiff, ?_, fun e s => errChunk_ne_content e s⟩
  intro hdr
  cases hg : generate_stream w payload with
  | error e =>
    rw [hg, hdr] at hiff
    exact Bool.noConfusion hiff
  | ok cs => exact ⟨cs, rfl, generate_stream_ok w payload cs hg⟩

/-- Witness for `error_channel`: a well-formed payload raises nothing
and yields a purely newline-terminated chunk sequence. -/
theorem error_channel_witness :
    directRaise C2payload = false ∧ terminalShape ["hello\n"] := by
  obtain ⟨h1, h2, h3⟩ := error_channel WT C2payload
  obtain ⟨cs, hcs, hshape⟩ := h2 rfl
  have hg : generate_stream WT C2payload = .ok ["hello\n"] := rfl
  rw [hg] at hcs
  injection hcs with h4
  rw [← h4] at hshape
  exact ⟨rfl, hshape⟩
